import Mathlib

/-!
Shallow embedding of `build_api_reporter.py` (Ketryx build API reporter).

The script reads a YAML config describing builds, validates that every glob
pattern matches at least one file, uploads matched artifacts over HTTP and
reports one build record per build entry.  The embedding models the
filesystem (glob) and the HTTP service as oracle functions inside an `Env`,
and threads an explicit trace of network calls and printed lines through
each operation, so that ordering and "no network call" properties can be
stated and proved.
-/

namespace BuildApiReporter

/-- `KetryxConfig` dataclass (lines 17-23).  All fields come from
`os.getenv`, which returns `None` when a variable is unset, so every field
is an `Option String` (the dataclass annotations are not enforced by
Python). -/
structure KetryxConfig where
  ketryx_url : Option String
  project : Option String
  api_key : Option String
  commit_sha : Option String
  version : Option String
deriving DecidableEq

/-- An HTTP response as the script observes it: a status code, the raw body
text, and the two JSON fields the script ever reads (`id` from the
artifact-upload endpoint, `buildId` from the builds endpoint), each `none`
when absent from the body. -/
structure Response where
  status : Nat
  text : String
  jsonId : Option String
  jsonBuildId : Option String
deriving DecidableEq

/-- One element of the `artifacts` list accumulated by the upload helpers:
`{'id': ..., 'type': ...}`. -/
structure Artifact where
  id : String
  type : String
deriving DecidableEq

/-- The JSON body posted to `/api/v1/builds` (lines 96-108).  `version` and
`commitSha` are `Option` because each key is only sometimes present in the
payload. -/
structure BuildData where
  project : Option String
  buildName : String
  artifacts : List Artifact
  sourceUrl : String
  repositoryUrls : List String
  version : Option String
  commitSha : Option String
deriving DecidableEq

/-- A network call made by the script: a file upload (path and content
type) or a build report (the JSON payload). -/
inductive NetCall where
  | upload (path : String) (content_type : String)
  | report (data : BuildData)
deriving DecidableEq

/-- One entry of an sbom build's `artifacts` list: `{file: glob, type: string}`. -/
structure SbomEntry where
  file : String
  type : String
deriving DecidableEq

/-- The `artifacts` value of a build entry.  Its shape depends on the
build's `type` string: a mapping with optional `junit` / `cucumber` keys
for test-results, a list of entries for sbom. -/
inductive BArtifacts where
  | tr (junit : Option (List String)) (cucumber : Option (List String))
  | sbom (entries : List SbomEntry)
deriving DecidableEq

/-- One entry of the config's `builds` list. -/
structure Build where
  name : String
  type : String
  artifacts : BArtifacts
deriving DecidableEq

/-- Result of `yaml.safe_load` on the config file: `falsy` models a value
for which `not build_config` holds (e.g. `None` for an empty file), `dict`
a truthy mapping whose `builds` key may be absent. -/
inductive ParsedYaml where
  | falsy
  | dict (builds : Option (List Build))
deriving DecidableEq

/-- The ambient world: process configuration, GitHub environment variables,
the filesystem (`glob.glob` as a function from pattern to the ordered list
of matches) and the HTTP service (a deterministic response for each
request). -/
structure Env where
  config : KetryxConfig
  github_server_url : Option String
  github_repository : Option String
  glob : String → List String
  uploadResp : String → String → Response
  reportResp : BuildData → Response

/-- Python truthiness of an optional string: `None` and `''` are falsy. -/
def truthy : Option String → Bool
  | none => false
  | some s => !s.isEmpty

/-- `KetryxReporter.upload_artifact` (lines 35-47): one POST to
`/api/v1/build-artifacts`; non-200 raises with the response text in the
message, 200 returns the `id` field of the JSON body (a missing `id` would
raise `KeyError`).  Returns the result together with the network call made. -/
def upload_artifact (env : Env) (file_path : String) (content_type : String) :
    Except String String × List NetCall :=
  let r := env.uploadResp file_path content_type
  let res :=
    if r.status ≠ 200 then
      Except.error ("Failed to upload artifact: " ++ r.text)
    else
      match r.jsonId with
      | some i => Except.ok i
      | none => Except.error "KeyError: id"
  (res, [NetCall.upload file_path content_type])

/-- The common upload loop: upload each file of `files` with content type
`ct`, tagging each resulting artifact with type string `ty`; the first
failure aborts the loop (a raised exception), keeping the calls made so
far in the trace. -/
def upload_files (env : Env) (files : List String) (ct ty : String) :
    Except String (List Artifact) × List NetCall :=
  match files with
  | [] => (Except.ok [], [])
  | f :: rest =>
    let (r, c) := upload_artifact env f ct
    match r with
    | Except.error e => (Except.error e, c)
    | Except.ok i =>
      let (r2, c2) := upload_files env rest ct ty
      match r2 with
      | Except.error e => (Except.error e, c ++ c2)
      | Except.ok arts => (Except.ok ({ id := i, type := ty } :: arts), c ++ c2)

/-- `KetryxReporter.upload_test_results` (lines 49-71).  The nested
`for pattern / for file_path in glob.glob(pattern)` loops are flattened as
`patterns.flatMap env.glob`, which preserves pattern order and, within each
pattern, filesystem match order.  JUnit files first with media type
`application/xml` and tag `junit-xml`, then Cucumber files with
`application/json` and tag `cucumber-json`. -/
def upload_test_results (env : Env) (junit_paths cucumber_paths : List String) :
    Except String (List Artifact) × List NetCall :=
  let (rj, cj) := upload_files env (junit_paths.flatMap env.glob) "application/xml" "junit-xml"
  match rj with
  | Except.error e => (Except.error e, cj)
  | Except.ok aj =>
    let (rc, cc) := upload_files env (cucumber_paths.flatMap env.glob) "application/json" "cucumber-json"
    match rc with
    | Except.error e => (Except.error e, cj ++ cc)
    | Except.ok ac => (Except.ok (aj ++ ac), cj ++ cc)

/-- `KetryxReporter.upload_sbom` (lines 73-90): every matched file is
uploaded as `application/json` and tagged `<sbom_type>-json`. -/
def upload_sbom (env : Env) (sbom_paths : List String) (sbom_type : String) :
    Except String (List Artifact) × List NetCall :=
  upload_files env (sbom_paths.flatMap env.glob) "application/json" (sbom_type ++ "-json")

/-- The JSON payload built by `KetryxReporter.report_build` (lines 96-108):
`sourceUrl` defaults to the empty string when `GITHUB_SERVER_URL` is unset,
`repositoryUrls` is the single f-string `"{server}/{repo}"`, and `version`
takes precedence over `commitSha` by Python truthiness. -/
def build_data (env : Env) (build_name : String) (artifacts : List Artifact) : BuildData :=
  { project := env.config.project
    buildName := build_name
    artifacts := artifacts
    sourceUrl := env.github_server_url.getD ""
    repositoryUrls := [env.github_server_url.getD "" ++ "/" ++ env.github_repository.getD ""]
    version := if truthy env.config.version then env.config.version else none
    commitSha :=
      if truthy env.config.version then none
      else if truthy env.config.commit_sha then env.config.commit_sha else none }

/-- `KetryxReporter.report_build` (lines 92-114): one POST to
`/api/v1/builds`; non-200 raises with the response text, 200 returns the
parsed JSON body (modelled as the `Response`). -/
def report_build (env : Env) (build_name : String) (artifacts : List Artifact) :
    Except String Response × List NetCall :=
  let d := build_data env build_name artifacts
  let r := env.reportResp d
  (if r.status ≠ 200 then Except.error ("Failed to report build: " ++ r.text)
   else Except.ok r,
   [NetCall.report d])

/-- How `process_build_config` fails: `ValueError` for a structurally
invalid config, `sys.exit(1)` after printing the collected missing-file
messages, or a Python type/attribute error when a build's `artifacts`
value does not have the shape its `type` string implies. -/
inductive ConfigFailure where
  | valueError (msg : String)
  | missingFilesExit (msgs : List String)
  | shapeError (msg : String)
deriving DecidableEq

/-- The missing-file messages recorded for one build entry by the
validation loop of `process_build_config` (lines 127-138): JUnit patterns
in order, then Cucumber patterns, for test-results; the `file` of each
entry for sbom; nothing for other types.  An entry whose `artifacts` shape
does not match its `type` raises (AttributeError / TypeError). -/
def missing_for_build (g : String → List String) (b : Build) : Except String (List String) :=
  if b.type = "test-results" then
    match b.artifacts with
    | BArtifacts.tr j c =>
      Except.ok
        (((j.getD []).filter (fun p => g p = [])).map (fun p => "JUnit file not found: " ++ p)
          ++ ((c.getD []).filter (fun p => g p = [])).map (fun p => "Cucumber file not found: " ++ p))
    | _ => Except.error "AttributeError"
  else if b.type = "sbom" then
    match b.artifacts with
    | BArtifacts.sbom entries =>
      Except.ok ((entries.filter (fun e => g e.file = [])).map
        (fun e => "SBOM file not found: " ++ e.file))
    | _ => Except.error "TypeError"
  else
    Except.ok []

/-- The validation loop over all builds, concatenating missing-file
messages in build order; a shape mismatch aborts at the first offending
build, as the raised exception would. -/
def collect_missing (g : String → List String) : List Build → Except String (List String)
  | [] => Except.ok []
  | b :: rest =>
    match missing_for_build g b with
    | Except.error e => Except.error e
    | Except.ok ms =>
      match collect_missing g rest with
      | Except.error e => Except.error e
      | Except.ok ms2 => Except.ok (ms ++ ms2)

/-- `process_build_config` (lines 116-146): raises `ValueError` when the
parsed config is falsy or lacks the `builds` key; otherwise collects every
missing-file message across every build and, if any were recorded, prints
the complete list and exits; else returns the builds list.  (Quotes inside
the Python messages are omitted.) -/
def process_build_config (g : String → List String) (cfg : ParsedYaml) :
    Except ConfigFailure (List Build) :=
  match cfg with
  | ParsedYaml.falsy => Except.error (ConfigFailure.valueError "Invalid config file: missing builds section")
  | ParsedYaml.dict none => Except.error (ConfigFailure.valueError "Invalid config file: missing builds section")
  | ParsedYaml.dict (some builds) =>
    match collect_missing g builds with
    | Except.error e => Except.error (ConfigFailure.shapeError e)
    | Except.ok missing =>
      if missing = [] then Except.ok builds
      else Except.error (ConfigFailure.missingFilesExit missing)

/-- The startup check of `main` (line 166):
`if not all([config.project, config.api_key, config.version])`. -/
def startup_check (config : KetryxConfig) : Bool :=
  truthy config.project && truthy config.api_key && truthy config.version

/-- The inner loop of `main`'s sbom branch (lines 182-186):
`for artifact in build['artifacts']: artifacts = reporter.upload_sbom(...)`.
The local variable `artifacts` is modelled as an `Option (List Artifact)`
(`none` when not yet bound); each iteration rebinds it, so after the loop
it holds only the last entry's uploads — or its previous value when the
entries list is empty. -/
def upload_sbom_loop (env : Env) (av : Option (List Artifact)) :
    List SbomEntry → Except String Unit × Option (List Artifact) × List NetCall
  | [] => (Except.ok (), av, [])
  | e :: rest =>
    let (r, cs) := upload_sbom env [e.file] e.type
    match r with
    | Except.error err => (Except.error err, av, cs)
    | Except.ok arts =>
      let (r2, av2, cs2) := upload_sbom_loop env (some arts) rest
      (r2, av2, cs ++ cs2)

/-- One iteration of `main`'s build loop (lines 175-192), given the current
value of the `artifacts` variable.  Returns: the outcome (`ok none` when a
build of unknown type was skipped, `ok (some resp)` when a report was
acknowledged), the updated `artifacts` variable, the network calls made
and the lines printed.  Using an unbound `artifacts` raises `NameError`;
the Python messages' quote characters are omitted. -/
def process_one_build (env : Env) (av : Option (List Artifact)) (b : Build) :
    (Except String (Option Response) × Option (List Artifact)) × List NetCall × List String :=
  if b.type = "test-results" then
    match b.artifacts with
    | BArtifacts.tr j c =>
      let (r, cs) := upload_test_results env (j.getD []) (c.getD [])
      match r with
      | Except.error e => ((Except.error e, av), cs, [])
      | Except.ok arts =>
        let (rr, cs2) := report_build env b.name arts
        match rr with
        | Except.error e => ((Except.error e, some arts), cs ++ cs2, [])
        | Except.ok resp =>
          ((Except.ok (some resp), some arts), cs ++ cs2,
           ["Reported " ++ b.name ++ " to Ketryx: " ++ resp.jsonBuildId.getD "None"])
    | _ => ((Except.error "AttributeError", av), [], [])
  else if b.type = "sbom" then
    match b.artifacts with
    | BArtifacts.sbom entries =>
      match upload_sbom_loop env av entries with
      | (Except.error e, av2, cs) => ((Except.error e, av2), cs, [])
      | (Except.ok _, av2, cs) =>
        match av2 with
        | none => ((Except.error "NameError: name artifacts is not defined", none), cs, [])
        | some arts =>
          let (rr, cs2) := report_build env b.name arts
          match rr with
          | Except.error e => ((Except.error e, some arts), cs ++ cs2, [])
          | Except.ok resp =>
            ((Except.ok (some resp), some arts), cs ++ cs2,
             ["Reported " ++ b.name ++ " to Ketryx: " ++ resp.jsonBuildId.getD "None"])
    | _ => ((Except.error "TypeError", av), [], [])
  else
    ((Except.ok none, av), [], ["Warning: Unknown build type " ++ b.type])

/-- `main`'s loop over the builds list, threading the `artifacts` variable
across iterations; the first raised exception aborts the run. -/
def run_builds (env : Env) (av : Option (List Artifact)) :
    List Build → Except String Unit × List NetCall × List String
  | [] => (Except.ok (), [], [])
  | b :: rest =>
    let ((res, av2), cs, ps) := process_one_build env av b
    match res with
    | Except.error e => (Except.error e, cs, ps)
    | Except.ok _ =>
      let (r2, cs2, ps2) := run_builds env av2 rest
      (r2, cs ++ cs2, ps ++ ps2)

/-- How `main` terminates abnormally: the `ValueError` for missing required
environment variables (line 167), the `AttributeError` from
`None.rstrip` when `KETRYX_URL` is unset (line 29), a config-loading
failure, or an exception raised while processing builds. -/
inductive RunError where
  | envError
  | attrError
  | config (f : ConfigFailure)
  | runtime (msg : String)
deriving DecidableEq

/-- `main` (lines 148-196): build the config from environment variables,
check the three required ones, construct the reporter (which dereferences
`ketryx_url`), load and validate the config file, then process each build,
with the `artifacts` variable initially unbound. -/
def main (env : Env) (cfg : ParsedYaml) :
    Except RunError Unit × List NetCall × List String :=
  if !startup_check env.config then
    (Except.error RunError.envError, [], [])
  else if env.config.ketryx_url.isNone then
    (Except.error RunError.attrError, [], [])
  else
    match process_build_config env.glob cfg with
    | Except.error f => (Except.error (RunError.config f), [], [])
    | Except.ok builds =>
      let (r, cs, ps) := run_builds env none builds
      match r with
      | Except.error e => (Except.error (RunError.runtime e), cs, ps)
      | Except.ok _ => (Except.ok (), cs, ps)

/-! ### Concrete sample worlds used by witnesses and counterexamples -/

/-- A small filesystem: three files, each its own pattern's unique match. -/
def sampleGlob : String → List String := fun p =>
  if p = "a.json" then ["a.json"]
  else if p = "b.json" then ["b.json"]
  else if p = "t.xml" then ["t.xml"]
  else []

/-- A service that accepts every upload, assigning id `id-<path>`. -/
def okUpload : String → String → Response := fun p _ =>
  { status := 200, text := "", jsonId := some ("id-" ++ p), jsonBuildId := none }

/-- A service that acknowledges every build report with build id `B1`. -/
def okReport : BuildData → Response := fun _ =>
  { status := 200, text := "ok", jsonId := none, jsonBuildId := some "B1" }

/-- A fully populated process configuration. -/
def sampleConfig : KetryxConfig :=
  { ketryx_url := some "https://k", project := some "P", api_key := some "K",
    commit_sha := some "abc", version := some "1.0" }

/-- A world with a complete configuration, no GitHub environment variables,
the sample filesystem and an always-accepting service. -/
def sampleEnv : Env :=
  { config := sampleConfig, github_server_url := none, github_repository := none,
    glob := sampleGlob, uploadResp := okUpload, reportResp := okReport }

/-- The sample world with `KETRYX_VERSION` set to the empty string. -/
def envVersionEmpty : Env :=
  { sampleEnv with config := { sampleConfig with version := some "" } }

/-- A configuration whose `KETRYX_PROJECT` is set but empty. -/
def configEmptyProject : KetryxConfig :=
  { ketryx_url := some "https://k", project := some "", api_key := some "K",
    commit_sha := none, version := some "1.0" }

/-- A service that rejects every upload with status 500 and body `boom`. -/
def failUpload : String → String → Response := fun _ _ =>
  { status := 500, text := "boom", jsonId := none, jsonBuildId := none }

/-- The sample world with an upload-rejecting service. -/
def envUploadFail : Env := { sampleEnv with uploadResp := failUpload }

/-- A test-results build whose single JUnit pattern matches `t.xml`. -/
def trBuildOne : Build :=
  { name := "t", type := "test-results", artifacts := BArtifacts.tr (some ["t.xml"]) none }

/-- A test-results build whose JUnit pattern matches nothing in the sample
filesystem. -/
def missingBuild : Build :=
  { name := "m", type := "test-results",
    artifacts := BArtifacts.tr (some ["missing.xml"]) none }

/-- An sbom build with two artifact entries, both matching one file in the
sample filesystem. -/
def sbomTwoEntriesBuild : Build :=
  { name := "sbom-build", type := "sbom",
    artifacts := BArtifacts.sbom
      [{ file := "a.json", type := "cyclonedx" },
       { file := "b.json", type := "spdx" }] }

/-- An sbom build whose `artifacts` list is empty; it passes the
missing-file validation vacuously. -/
def sbomEmptyBuild : Build :=
  { name := "empty-sbom", type := "sbom", artifacts := BArtifacts.sbom [] }

/-! ### Helper lemmas about the upload loops -/

/-- When every file's upload is accepted with id `idf f`, the upload loop
returns the artifacts in file order and its trace is exactly one upload
call per file, in order. -/
theorem upload_files_ok (env : Env) (ct ty : String) (idf : String → String) :
    ∀ fs : List String,
      (∀ f ∈ fs, (env.uploadResp f ct).status = 200
        ∧ (env.uploadResp f ct).jsonId = some (idf f)) →
      upload_files env fs ct ty
        = (Except.ok (fs.map fun f => { id := idf f, type := ty }),
           fs.map fun f => NetCall.upload f ct)
  | [], _ => rfl
  | f :: rest, h => by
    obtain ⟨h1, h2⟩ := h f (List.mem_cons_self f rest)
    have ih := upload_files_ok env ct ty idf rest fun g hg => h g (List.mem_cons_of_mem f hg)
    simp [upload_files, upload_artifact, h1, h2, ih]

/-- A trace made only of upload calls (no report was sent). -/
def upload_only (cs : List NetCall) : Prop :=
  ∀ c ∈ cs, ∀ d : BuildData, c ≠ NetCall.report d

theorem upload_only_nil : upload_only [] := by
  intro c hc
  simp at hc

theorem upload_only_append {cs1 cs2 : List NetCall}
    (h1 : upload_only cs1) (h2 : upload_only cs2) : upload_only (cs1 ++ cs2) := by
  intro c hc d
  rcases List.mem_append.mp hc with h | h
  · exact h1 c h d
  · exact h2 c h d

/-- Whatever happens, the upload loop's trace holds only upload calls. -/
theorem upload_files_upload_only (env : Env) (ct ty : String) :
    ∀ fs : List String, upload_only (upload_files env fs ct ty).2
  | [] => upload_only_nil
  | f :: rest => by
    have ih := upload_files_upload_only env ct ty rest
    have hsingle : upload_only [NetCall.upload f ct] := by
      intro c hc d
      simp at hc
      simp [hc]
    rcases hres : (upload_artifact env f ct).1 with e | i
    · have hpair : upload_artifact env f ct = (Except.error e, [NetCall.upload f ct]) :=
        Prod.ext hres rfl
      intro c hc d
      simp only [upload_files, hpair] at hc
      exact hsingle c hc d
    · have hpair : upload_artifact env f ct = (Except.ok i, [NetCall.upload f ct]) :=
        Prod.ext hres rfl
      rcases hr2 : upload_files env rest ct ty with ⟨r2, c2⟩
      have ih2 : upload_only c2 := by
        rw [hr2] at ih
        exact ih
      intro c hc d
      rcases r2 with e2 | arts <;>
        · simp only [upload_files, hpair, hr2] at hc
          exact upload_only_append hsingle ih2 c hc d

/-- The trace of `upload_test_results` holds only upload calls. -/
theorem upload_test_results_upload_only (env : Env) (junit cucumber : List String) :
    upload_only (upload_test_results env junit cucumber).2 := by
  have h1 := upload_files_upload_only env "application/xml" "junit-xml" (junit.flatMap env.glob)
  have h2 := upload_files_upload_only env "application/json" "cucumber-json"
    (cucumber.flatMap env.glob)
  rcases hj : upload_files env (junit.flatMap env.glob) "application/xml" "junit-xml"
    with ⟨rj, cj⟩
  rcases hc : upload_files env (cucumber.flatMap env.glob) "application/json" "cucumber-json"
    with ⟨rc, cc⟩
  rw [hj] at h1
  rw [hc] at h2
  rcases rj with e | aj
  · simp only [upload_test_results, hj]
    exact h1
  · rcases rc with e | ac <;>
      · simp only [upload_test_results, hj, hc]
        exact upload_only_append h1 h2

/-- The trace of the sbom entry loop holds only upload calls. -/
theorem upload_sbom_loop_upload_only (env : Env) :
    ∀ (entries : List SbomEntry) (av : Option (List Artifact)),
      upload_only (upload_sbom_loop env av entries).2.2
  | [], _ => upload_only_nil
  | e :: rest, av => by
    have h1 := upload_files_upload_only env "application/json" (e.type ++ "-json")
      ([e.file].flatMap env.glob)
    rcases hu : upload_sbom env [e.file] e.type with ⟨r, cs⟩
    have h1 : upload_only cs := by
      rw [show upload_sbom env [e.file] e.type
          = upload_files env ([e.file].flatMap env.glob) "application/json" (e.type ++ "-json")
          from rfl] at hu
      rw [hu] at h1
      exact h1
    rcases r with err | arts
    · simp only [upload_sbom_loop, hu]
      exact h1
    · have ih := upload_sbom_loop_upload_only env rest (some arts)
      rcases hrec : upload_sbom_loop env (some arts) rest with ⟨r2, av2, cs2⟩
      rw [hrec] at ih
      simp only [upload_sbom_loop, hu, hrec]
      exact upload_only_append h1 ih

/-! ### C4: non-200 upload response raises with the body text -/

/-- C4: a non-200 upload response makes `upload_artifact` fail with the
response body appended verbatim to the message and no id is returned;
a 200 response returns the body's `id` field; when a build's uploads fail,
that build's processing ends in the error without any report call having
been made; and such an error aborts the run, leaving later builds
unprocessed. -/
theorem C4_upload_error_handling :
    (∀ (env : Env) (p ct : String), (env.uploadResp p ct).status ≠ 200 →
        upload_artifact env p ct
          = (Except.error ("Failed to upload artifact: " ++ (env.uploadResp p ct).text),
             [NetCall.upload p ct]))
    ∧ (∀ (env : Env) (p ct i : String),
        (env.uploadResp p ct).status = 200 → (env.uploadResp p ct).jsonId = some i →
        (upload_artifact env p ct).1 = Except.ok i)
    ∧ (∀ (env : Env) (av : Option (List Artifact)) (b : Build)
        (j c : Option (List String)) (e : String) (cs : List NetCall),
        b.type = "test-results" → b.artifacts = BArtifacts.tr j c →
        upload_test_results env (j.getD []) (c.getD []) = (Except.error e, cs) →
        (process_one_build env av b).1.1 = Except.error e
        ∧ ∀ call ∈ (process_one_build env av b).2.1, ∀ d, call ≠ NetCall.report d)
    ∧ (∀ (env : Env) (av av2 : Option (List Artifact)) (b : Build)
        (entries : List SbomEntry) (e : String) (cs : List NetCall),
        b.type = "sbom" → b.artifacts = BArtifacts.sbom entries →
        upload_sbom_loop env av entries = (Except.error e, av2, cs) →
        (process_one_build env av b).1.1 = Except.error e
        ∧ ∀ call ∈ (process_one_build env av b).2.1, ∀ d, call ≠ NetCall.report d)
    ∧ (∀ (env : Env) (av : Option (List Artifact)) (b : Build) (rest : List Build) (e : String),
        (process_one_build env av b).1.1 = Except.error e →
        (run_builds env av (b :: rest)).1 = Except.error e
        ∧ (run_builds env av (b :: rest)).2.1 = (process_one_build env av b).2.1) := by
  refine ⟨?_, ?_, ?_, ?_, ?_⟩
  · intro env p ct h
    simp [upload_artifact, h]
  · intro env p ct i h1 h2
    simp [upload_artifact, h1, h2]
  · intro env av b j c e cs htype hart hup
    have hno := upload_test_results_upload_only env (j.getD []) (c.getD [])
    rw [hup] at hno
    have hpb : process_one_build env av b = ((Except.error e, av), cs, []) := by
      simp only [process_one_build, htype, hart, hup, if_pos]
    rw [hpb]
    exact ⟨rfl, hno⟩
  · intro env av av2 b entries e cs htype hart hup
    have hno := upload_sbom_loop_upload_only env entries av
    rw [hup] at hno
    have hpb : process_one_build env av b = ((Except.error e, av2), cs, []) := by
      simp [process_one_build, htype, hart, hup]
    rw [hpb]
    exact ⟨rfl, hno⟩
  · intro env av b rest e h
    rcases hp : process_one_build env av b with ⟨⟨res, av2⟩, cs, ps⟩
    rw [hp] at h
    simp only at h
    subst h
    simp [run_builds, hp]

/-- C4 witness: the theorem's first, third and fourth parts applied in a
world whose service rejects every upload with body `boom`, to a
test-results build and to an sbom build. -/
theorem C4_witness :
    upload_artifact envUploadFail "t.xml" "application/xml"
      = (Except.error ("Failed to upload artifact: "
           ++ (envUploadFail.uploadResp "t.xml" "application/xml").text),
         [NetCall.upload "t.xml" "application/xml"])
    ∧ ((process_one_build envUploadFail none trBuildOne).1.1
         = Except.error "Failed to upload artifact: boom"
       ∧ ∀ call ∈ (process_one_build envUploadFail none trBuildOne).2.1,
           ∀ d, call ≠ NetCall.report d)
    ∧ ((process_one_build envUploadFail none sbomTwoEntriesBuild).1.1
         = Except.error "Failed to upload artifact: boom"
       ∧ ∀ call ∈ (process_one_build envUploadFail none sbomTwoEntriesBuild).2.1,
           ∀ d, call ≠ NetCall.report d) :=
  ⟨C4_upload_error_handling.1 envUploadFail "t.xml" "application/xml" (by decide),
   C4_upload_error_handling.2.2.1 envUploadFail none trBuildOne (some ["t.xml"]) none
     "Failed to upload artifact: boom" [NetCall.upload "t.xml" "application/xml"]
     rfl rfl rfl,
   C4_upload_error_handling.2.2.2.1 envUploadFail none none sbomTwoEntriesBuild
     [{ file := "a.json", type := "cyclonedx" }, { file := "b.json", type := "spdx" }]
     "Failed to upload artifact: boom" [NetCall.upload "a.json" "application/json"]
     rfl rfl rfl⟩

/-! ### C5: upload order, content types and tags of test results -/

/-- C5: when the service accepts every upload (assigning id `idf f ct`),
`upload_test_results` returns exactly the JUnit artifacts (patterns in
order, matches in filesystem order, content type `application/xml`, tag
`junit-xml`) followed by the Cucumber artifacts (`application/json`,
`cucumber-json`), and its network trace is the matching uploads in that
same order. -/
theorem C5_upload_test_results_order (env : Env) (junit cucumber : List String)
    (idf : String → String → String)
    (h : ∀ p ct, (env.uploadResp p ct).status = 200
        ∧ (env.uploadResp p ct).jsonId = some (idf p ct)) :
    upload_test_results env junit cucumber
      = (Except.ok
           ((junit.flatMap env.glob).map
              (fun f => { id := idf f "application/xml", type := "junit-xml" })
            ++ (cucumber.flatMap env.glob).map
              (fun f => { id := idf f "application/json", type := "cucumber-json" })),
         (junit.flatMap env.glob).map (fun f => NetCall.upload f "application/xml")
          ++ (cucumber.flatMap env.glob).map (fun f => NetCall.upload f "application/json")) := by
  have h1 := upload_files_ok env "application/xml" "junit-xml"
    (fun f => idf f "application/xml") (junit.flatMap env.glob)
    (fun f _ => h f "application/xml")
  have h2 := upload_files_ok env "application/json" "cucumber-json"
    (fun f => idf f "application/json") (cucumber.flatMap env.glob)
    (fun f _ => h f "application/json")
  simp [upload_test_results, h1, h2]

/-- C5 witness: the theorem applied in the sample world to one JUnit and
one Cucumber pattern. -/
theorem C5_witness :
    upload_test_results sampleEnv ["t.xml"] ["a.json"]
      = (Except.ok
           ((["t.xml"].flatMap sampleEnv.glob).map
              (fun f => { id := "id-" ++ f, type := "junit-xml" })
            ++ (["a.json"].flatMap sampleEnv.glob).map
              (fun f => { id := "id-" ++ f, type := "cucumber-json" })),
         (["t.xml"].flatMap sampleEnv.glob).map
            (fun f => NetCall.upload f "application/xml")
          ++ (["a.json"].flatMap sampleEnv.glob).map
            (fun f => NetCall.upload f "application/json")) :=
  C5_upload_test_results_order sampleEnv ["t.xml"] ["a.json"]
    (fun p _ => "id-" ++ p) (fun _ _ => ⟨rfl, rfl⟩)

/-! ### C3: version/commitSha precedence in the report payload -/

/-- C3 counterexample: with `version` present in the configuration but
equal to the empty string (and `commit_sha` present), the payload contains
`commitSha` and not `version` — refuting the claim that a *present*
`version` always wins. -/
theorem C3_counterexample :
    envVersionEmpty.config.version.isSome = true
    ∧ (build_data envVersionEmpty "b" []).version = none
    ∧ (build_data envVersionEmpty "b" []).commitSha = some "abc" := by
  decide

/-- C3 (amended): the payload contains `version` (and no `commitSha`) when
the configured version is present and non-empty; otherwise `commitSha`
when the commit is present and non-empty; otherwise neither. -/
theorem C3_version_precedence (env : Env) (name : String) (arts : List Artifact) :
    (truthy env.config.version = true →
        (build_data env name arts).version = env.config.version
        ∧ (build_data env name arts).commitSha = none)
    ∧ (truthy env.config.version = false → truthy env.config.commit_sha = true →
        (build_data env name arts).version = none
        ∧ (build_data env name arts).commitSha = env.config.commit_sha)
    ∧ (truthy env.config.version = false → truthy env.config.commit_sha = false →
        (build_data env name arts).version = none
        ∧ (build_data env name arts).commitSha = none) := by
  refine ⟨fun h => ?_, fun h h2 => ?_, fun h h2 => ?_⟩ <;>
    simp [build_data, h] <;> simp [h2]

/-- C3 witness: the amended theorem applied in the sample world, where the
version is `"1.0"`. -/
theorem C3_witness :
    (build_data sampleEnv "b" []).version = sampleEnv.config.version
    ∧ (build_data sampleEnv "b" []).commitSha = none :=
  (C3_version_precedence sampleEnv "b" []).1 (by decide)

/-! ### C2: every missing pattern is reported before any network call -/

/-- Pattern `p` is a JUnit pattern of build `b` with zero filesystem
matches. -/
def junit_missing (g : String → List String) (b : Build) (p : String) : Prop :=
  b.type = "test-results"
    ∧ ∃ j c, b.artifacts = BArtifacts.tr j c ∧ p ∈ j.getD [] ∧ g p = []

/-- Pattern `p` is a Cucumber pattern of build `b` with zero filesystem
matches. -/
def cucumber_missing (g : String → List String) (b : Build) (p : String) : Prop :=
  b.type = "test-results"
    ∧ ∃ j c, b.artifacts = BArtifacts.tr j c ∧ p ∈ c.getD [] ∧ g p = []

/-- Pattern `p` is the `file` of an sbom entry of build `b` with zero
filesystem matches. -/
def sbom_missing (g : String → List String) (b : Build) (p : String) : Prop :=
  b.type = "sbom"
    ∧ ∃ entries, b.artifacts = BArtifacts.sbom entries
        ∧ (∃ e ∈ entries, e.file = p) ∧ g p = []

/-- The build's `artifacts` value has the shape its `type` string implies,
so the validation loop does not raise. -/
def shape_ok (b : Build) : Bool :=
  if b.type = "test-results" then
    match b.artifacts with
    | BArtifacts.tr _ _ => true
    | _ => false
  else if b.type = "sbom" then
    match b.artifacts with
    | BArtifacts.sbom _ => true
    | _ => false
  else true

/-- For a well-shaped build the validation step succeeds and its message
list covers every missing pattern of that build. -/
theorem missing_for_build_ok (g : String → List String) (b : Build)
    (h : shape_ok b = true) :
    ∃ ms, missing_for_build g b = Except.ok ms
      ∧ (∀ p, junit_missing g b p → ("JUnit file not found: " ++ p) ∈ ms)
      ∧ (∀ p, cucumber_missing g b p → ("Cucumber file not found: " ++ p) ∈ ms)
      ∧ (∀ p, sbom_missing g b p → ("SBOM file not found: " ++ p) ∈ ms) := by
  by_cases ht : b.type = "test-results"
  · rcases hart : b.artifacts with ⟨j, c⟩ | entries
    · refine ⟨((j.getD []).filter (fun p => decide (g p = []))).map
            (fun p => "JUnit file not found: " ++ p)
          ++ ((c.getD []).filter (fun p => decide (g p = []))).map
            (fun p => "Cucumber file not found: " ++ p),
        by simp [missing_for_build, ht, hart], ?_, ?_, ?_⟩
      · rintro p ⟨_, j2, c2, hart2, hp, hg⟩
        rw [hart] at hart2
        injection hart2 with hj hc
        subst hj
        refine List.mem_append_left _ (List.mem_map_of_mem _ ?_)
        simp [List.mem_filter, hp, hg]
      · rintro p ⟨_, j2, c2, hart2, hp, hg⟩
        rw [hart] at hart2
        injection hart2 with hj hc
        subst hc
        refine List.mem_append_right _ (List.mem_map_of_mem _ ?_)
        simp [List.mem_filter, hp, hg]
      · rintro p ⟨hs, _⟩
        rw [ht] at hs
        simp at hs
    · rw [shape_ok, if_pos ht, hart] at h
      simp at h
  · by_cases hs : b.type = "sbom"
    · rcases hart : b.artifacts with ⟨j, c⟩ | entries
      · rw [shape_ok, if_neg ht, if_pos hs, hart] at h
        simp at h
      · refine ⟨(entries.filter (fun e => decide (g e.file = []))).map
            (fun e => "SBOM file not found: " ++ e.file),
          by simp [missing_for_build, ht, hs, hart], ?_, ?_, ?_⟩
        · rintro p ⟨ht2, _⟩
          exact absurd (hs ▸ ht2) (by simp)
        · rintro p ⟨ht2, _⟩
          exact absurd (hs ▸ ht2) (by simp)
        · rintro p ⟨_, entries2, hart2, ⟨e, he, hef⟩, hg⟩
          rw [hart] at hart2
          injection hart2 with hent
          subst hent
          have : ("SBOM file not found: " ++ e.file) ∈
              (entries.filter (fun e => g e.file = [])).map
                (fun e => "SBOM file not found: " ++ e.file) := by
            refine List.mem_map_of_mem _ ?_
            simp [List.mem_filter, he, hef, hg]
          rw [hef] at this
          exact this
    · refine ⟨[], by simp [missing_for_build, ht, hs], ?_, ?_, ?_⟩
      · rintro p ⟨ht2, _⟩
        exact absurd ht2 ht
      · rintro p ⟨ht2, _⟩
        exact absurd ht2 ht
      · rintro p ⟨hs2, _⟩
        exact absurd hs2 hs

/-- For a well-shaped builds list the validation pass succeeds, and every
message recorded for any build is in the final list. -/
theorem collect_missing_ok (g : String → List String) :
    ∀ builds : List Build, (∀ b ∈ builds, shape_ok b = true) →
      ∃ ms, collect_missing g builds = Except.ok ms
        ∧ ∀ b ∈ builds, ∀ m msb, missing_for_build g b = Except.ok msb → m ∈ msb → m ∈ ms
  | [], _ => ⟨[], rfl, by simp⟩
  | b :: rest, h => by
    obtain ⟨msb, hb, -, -, -⟩ := missing_for_build_ok g b (h b (List.mem_cons_self b rest))
    obtain ⟨ms, hms, hmem⟩ :=
      collect_missing_ok g rest (fun x hx => h x (List.mem_cons_of_mem b hx))
    refine ⟨msb ++ ms, by simp [collect_missing, hb, hms], ?_⟩
    intro b2 hb2 m msb2 hok hm
    rcases List.mem_cons.mp hb2 with h2 | h2
    · subst h2
      have := hb.symm.trans hok
      injection this with heq
      subst heq
      exact List.mem_append_left _ hm
    · exact List.mem_append_right _ (hmem b2 h2 m msb2 hok hm)

/-- C2: when at least one pattern of at least one build matches no file,
the loader fails with the collected message list, that list covers every
missing pattern of every build (JUnit, Cucumber and sbom alike), and the
whole run performs zero network calls. -/
theorem C2_missing_files_all_reported (env : Env) (builds : List Build)
    (hshape : ∀ b ∈ builds, shape_ok b = true)
    (hmiss : ∃ b ∈ builds, ∃ p, junit_missing env.glob b p
      ∨ cucumber_missing env.glob b p ∨ sbom_missing env.glob b p) :
    ∃ ms, process_build_config env.glob (ParsedYaml.dict (some builds))
        = Except.error (ConfigFailure.missingFilesExit ms)
      ∧ (∀ b ∈ builds, ∀ p, junit_missing env.glob b p →
          ("JUnit file not found: " ++ p) ∈ ms)
      ∧ (∀ b ∈ builds, ∀ p, cucumber_missing env.glob b p →
          ("Cucumber file not found: " ++ p) ∈ ms)
      ∧ (∀ b ∈ builds, ∀ p, sbom_missing env.glob b p →
          ("SBOM file not found: " ++ p) ∈ ms)
      ∧ (main env (ParsedYaml.dict (some builds))).2.1 = [] := by
  obtain ⟨ms, hcol, hmem⟩ := collect_missing_ok env.glob builds hshape
  have hj : ∀ b ∈ builds, ∀ p, junit_missing env.glob b p →
      ("JUnit file not found: " ++ p) ∈ ms := by
    intro b hb p hp
    obtain ⟨msb, hok, hjm, -, -⟩ := missing_for_build_ok env.glob b (hshape b hb)
    exact hmem b hb _ msb hok (hjm p hp)
  have hc : ∀ b ∈ builds, ∀ p, cucumber_missing env.glob b p →
      ("Cucumber file not found: " ++ p) ∈ ms := by
    intro b hb p hp
    obtain ⟨msb, hok, -, hcm, -⟩ := missing_for_build_ok env.glob b (hshape b hb)
    exact hmem b hb _ msb hok (hcm p hp)
  have hsb : ∀ b ∈ builds, ∀ p, sbom_missing env.glob b p →
      ("SBOM file not found: " ++ p) ∈ ms := by
    intro b hb p hp
    obtain ⟨msb, hok, -, -, hsm⟩ := missing_for_build_ok env.glob b (hshape b hb)
    exact hmem b hb _ msb hok (hsm p hp)
  have hne : ms ≠ [] := by
    obtain ⟨b, hb, p, hp⟩ := hmiss
    rcases hp with hp | hp | hp
    · exact List.ne_nil_of_mem (hj b hb p hp)
    · exact List.ne_nil_of_mem (hc b hb p hp)
    · exact List.ne_nil_of_mem (hsb b hb p hp)
  have hproc : process_build_config env.glob (ParsedYaml.dict (some builds))
      = Except.error (ConfigFailure.missingFilesExit ms) := by
    simp [process_build_config, hcol, hne]
  refine ⟨ms, hproc, hj, hc, hsb, ?_⟩
  unfold main
  split
  · rfl
  · split
    · rfl
    · rw [hproc]

/-- C2 witness: the theorem applied to a one-build config whose only
pattern has no match. -/
theorem C2_witness :
    ∃ ms, process_build_config sampleEnv.glob (ParsedYaml.dict (some [missingBuild]))
        = Except.error (ConfigFailure.missingFilesExit ms)
      ∧ (∀ b ∈ [missingBuild], ∀ p, junit_missing sampleEnv.glob b p →
          ("JUnit file not found: " ++ p) ∈ ms)
      ∧ (∀ b ∈ [missingBuild], ∀ p, cucumber_missing sampleEnv.glob b p →
          ("Cucumber file not found: " ++ p) ∈ ms)
      ∧ (∀ b ∈ [missingBuild], ∀ p, sbom_missing sampleEnv.glob b p →
          ("SBOM file not found: " ++ p) ∈ ms)
      ∧ (main sampleEnv (ParsedYaml.dict (some [missingBuild]))).2.1 = [] :=
  C2_missing_files_all_reported sampleEnv [missingBuild]
    (by decide)
    ⟨missingBuild, List.mem_singleton.mpr rfl, "missing.xml",
      Or.inl ⟨rfl, some ["missing.xml"], none, rfl, List.mem_singleton.mpr rfl, rfl⟩⟩

/-! ### C6: structurally invalid config fails before any network call -/

/-- C6: a falsy parsed config (empty file) or a mapping without the
`builds` key makes `process_build_config` raise `ValueError`, and the run
performs zero network calls. -/
theorem C6_invalid_config_fails_without_network (env : Env) (cfg : ParsedYaml)
    (h : cfg = ParsedYaml.falsy ∨ cfg = ParsedYaml.dict none) :
    process_build_config env.glob cfg
      = Except.error (ConfigFailure.valueError "Invalid config file: missing builds section")
    ∧ (main env cfg).2.1 = [] := by
  have hp : process_build_config env.glob cfg
      = Except.error (ConfigFailure.valueError "Invalid config file: missing builds section") := by
    rcases h with h | h <;> subst h <;> rfl
  refine ⟨hp, ?_⟩
  unfold main
  split
  · rfl
  · split
    · rfl
    · rw [hp]

/-- C6 witness: the theorem applied to the empty config file in the sample
world. -/
theorem C6_witness :
    process_build_config sampleEnv.glob ParsedYaml.falsy
      = Except.error (ConfigFailure.valueError "Invalid config file: missing builds section")
    ∧ (main sampleEnv ParsedYaml.falsy).2.1 = [] :=
  C6_invalid_config_fails_without_network sampleEnv ParsedYaml.falsy (Or.inl rfl)

/-! ### C7: unknown build type warns, skips, and never aborts -/

/-- C7: a build whose type is neither `test-results` nor `sbom` produces
exactly a warning line, makes no network call, leaves the `artifacts`
variable untouched, and the loop continues with the remaining builds
exactly as it would have without it. -/
theorem C7_unknown_type_warn_and_skip (env : Env) (av : Option (List Artifact))
    (b : Build) (rest : List Build)
    (h1 : b.type ≠ "test-results") (h2 : b.type ≠ "sbom") :
    process_one_build env av b
      = ((Except.ok none, av), [], ["Warning: Unknown build type " ++ b.type])
    ∧ run_builds env av (b :: rest)
      = ((run_builds env av rest).1, (run_builds env av rest).2.1,
         ("Warning: Unknown build type " ++ b.type) :: (run_builds env av rest).2.2) := by
  have hp : process_one_build env av b
      = ((Except.ok none, av), [], ["Warning: Unknown build type " ++ b.type]) := by
    unfold process_one_build
    rw [if_neg h1, if_neg h2]
  refine ⟨hp, ?_⟩
  simp only [run_builds, hp, List.nil_append, List.singleton_append]

/-- C7 witness: the theorem applied to a build of type `docker-image`. -/
theorem C7_witness :
    process_one_build sampleEnv none
        { name := "x", type := "docker-image", artifacts := BArtifacts.sbom [] }
      = ((Except.ok none, none), [],
         ["Warning: Unknown build type " ++ "docker-image"])
    ∧ run_builds sampleEnv none
        [{ name := "x", type := "docker-image", artifacts := BArtifacts.sbom [] }]
      = ((run_builds sampleEnv none []).1, (run_builds sampleEnv none []).2.1,
         ("Warning: Unknown build type " ++ "docker-image") :: (run_builds sampleEnv none []).2.2) :=
  C7_unknown_type_warn_and_skip sampleEnv none
    { name := "x", type := "docker-image", artifacts := BArtifacts.sbom [] } []
    (by decide) (by decide)

/-! ### C8: startup check on required environment variables -/

/-- C8 counterexample: with all three required variables present but the
project set to the empty string, the startup check fails — refuting the
claim that presence of all three suffices for startup to proceed. -/
theorem C8_counterexample :
    configEmptyProject.project.isSome = true
    ∧ configEmptyProject.api_key.isSome = true
    ∧ configEmptyProject.version.isSome = true
    ∧ startup_check configEmptyProject = false := by
  decide

/-- C8 (amended): startup fails when any of project, api key or version is
missing from the environment or set to the empty string; it proceeds when
all three are present and non-empty; the base URL and commit SHA play no
role in the check; and a failing check makes `main` stop with the
environment error before any network call. -/
theorem C8_startup_requirements (cfg : KetryxConfig) :
    (cfg.project = none ∨ cfg.project = some ""
        ∨ cfg.api_key = none ∨ cfg.api_key = some ""
        ∨ cfg.version = none ∨ cfg.version = some "" →
      startup_check cfg = false)
    ∧ ((∃ p, cfg.project = some p ∧ p ≠ "") → (∃ k, cfg.api_key = some k ∧ k ≠ "") →
        (∃ v, cfg.version = some v ∧ v ≠ "") → startup_check cfg = true)
    ∧ (∀ url sha, startup_check { cfg with ketryx_url := url, commit_sha := sha }
        = startup_check cfg)
    ∧ (∀ env : Env, ∀ pcfg : ParsedYaml, env.config = cfg →
        startup_check cfg = false →
        main env pcfg = (Except.error RunError.envError, [], [])) := by
  refine ⟨?_, ?_, ?_, ?_⟩
  · have hiso : "".isEmpty = true := rfl
    rintro (h | h | h | h | h | h) <;> simp [startup_check, truthy, h, hiso]
  · rintro ⟨p, hp, hp2⟩ ⟨k, hk, hk2⟩ ⟨v, hv, hv2⟩
    simp only [startup_check, truthy, hp, hk, hv, Bool.and_eq_true, Bool.not_eq_true']
    refine ⟨⟨?_, ?_⟩, ?_⟩ <;>
      exact Bool.eq_false_iff.mpr fun hb => by
        simp only [String.isEmpty_iff] at hb
        simp_all
  · intro url sha
    rfl
  · intro env pcfg hc h
    unfold main
    rw [hc, h]
    rfl

/-- C8 witness: the theorem applied to the sample configuration, whose
three required variables are all non-empty. -/
theorem C8_witness : startup_check sampleConfig = true :=
  (C8_startup_requirements sampleConfig).2.1
    ⟨"P", rfl, by decide⟩ ⟨"K", rfl, by decide⟩ ⟨"1.0", rfl, by decide⟩

/-! ### C9: report payload when the GitHub environment is absent -/

/-- C9 counterexample: with both GitHub variables unset, the single entry
of `repositoryUrls` is `"/"` (an empty server and an empty repository
joined by a slash), not the empty string the claim asserts. -/
theorem C9_counterexample :
    (build_data sampleEnv "b" []).sourceUrl = ""
    ∧ (build_data sampleEnv "b" []).repositoryUrls = ["/"]
    ∧ (build_data sampleEnv "b" []).repositoryUrls ≠ [""] := by
  decide

/-- C9 (amended): when `GITHUB_SERVER_URL` and `GITHUB_REPOSITORY` are
both unset, the build record is still constructed and submitted without
error; its source URL is the empty string and its single repository URL
entry is the string `"/"`. -/
theorem C9_missing_github_env_report (env : Env) (name : String) (arts : List Artifact)
    (h1 : env.github_server_url = none) (h2 : env.github_repository = none)
    (h3 : (env.reportResp (build_data env name arts)).status = 200) :
    (build_data env name arts).sourceUrl = ""
    ∧ (build_data env name arts).repositoryUrls = ["/"]
    ∧ (report_build env name arts).1
        = Except.ok (env.reportResp (build_data env name arts)) := by
  refine ⟨?_, ?_, ?_⟩
  · simp [build_data, h1]
  · simp [build_data, h1, h2]
  · simp [report_build, h3]

/-- C9 witness: the theorem applied in the sample world, whose GitHub
variables are unset and whose service accepts the report. -/
theorem C9_witness :
    (build_data sampleEnv "rep" []).sourceUrl = ""
    ∧ (build_data sampleEnv "rep" []).repositoryUrls = ["/"]
    ∧ (report_build sampleEnv "rep" []).1
        = Except.ok (sampleEnv.reportResp (build_data sampleEnv "rep" [])) :=
  C9_missing_github_env_report sampleEnv "rep" [] rfl rfl rfl

/-! ### C1: sbom builds do not aggregate their entries into one report -/

/-- C1 evaluation at the failing input: an sbom build with two entries
uploads both files, yet submits a single report whose artifacts list holds
only the *last* entry's artifact — the `artifacts` variable is rebound by
each iteration of the entry loop, so the earlier upload is dropped from
the report instead of being aggregated. -/
theorem C1_sbom_report_drops_earlier_entries :
    (main sampleEnv (ParsedYaml.dict (some [sbomTwoEntriesBuild]))).2.1
      = [NetCall.upload "a.json" "application/json",
         NetCall.upload "b.json" "application/json",
         NetCall.report
           { project := some "P", buildName := "sbom-build",
             artifacts := [{ id := "id-b.json", type := "spdx-json" }],
             sourceUrl := "", repositoryUrls := ["/"],
             version := some "1.0", commitSha := none }] := by
  rfl

/-! ### C10: the `artifacts` variable is unbound or stale -/

/-- C10: a valid config whose first build is an sbom with zero entries
passes validation, then crashes with the unbound-variable `NameError` when
the report step reads the never-assigned `artifacts` variable, before any
network call; and when such a build follows a test-results build, its
report silently reuses the previous build's artifacts list. -/
theorem C10_unbound_artifacts_variable :
    (process_build_config sampleEnv.glob (ParsedYaml.dict (some [sbomEmptyBuild]))
        = Except.ok [sbomEmptyBuild]
      ∧ main sampleEnv (ParsedYaml.dict (some [sbomEmptyBuild]))
        = (Except.error (RunError.runtime "NameError: name artifacts is not defined"),
           [], []))
    ∧ main sampleEnv (ParsedYaml.dict (some [trBuildOne, sbomEmptyBuild]))
      = (Except.ok (),
         [NetCall.upload "t.xml" "application/xml",
          NetCall.report
            { project := some "P", buildName := "t",
              artifacts := [{ id := "id-t.xml", type := "junit-xml" }],
              sourceUrl := "", repositoryUrls := ["/"],
              version := some "1.0", commitSha := none },
          NetCall.report
            { project := some "P", buildName := "empty-sbom",
              artifacts := [{ id := "id-t.xml", type := "junit-xml" }],
              sourceUrl := "", repositoryUrls := ["/"],
              version := some "1.0", commitSha := none }],
         ["Reported t to Ketryx: B1", "Reported empty-sbom to Ketryx: B1"]) := by
  exact ⟨⟨rfl, rfl⟩, rfl⟩

end BuildApiReporter
